import Mathlib

/-!
Verification of the Lead Qualification & Scoring Pipeline.

Shallow embedding of the scoring, persona-matching and interaction-ingestion
code (services/scoring_service.py, services/lead_service.py,
services/analysis_service.py, services/ai_analysis_service.py,
persona/service.py, repositories/lead_repo.py). Python runtime values that
rule evaluation can see are modelled by `PyVal`; operations that can raise
are modelled in `Except`; database state is explicit (`DB`). External
collaborators (the Apify scraper, the AI text-generation provider, the DB
session) are inputs: their possible outcomes are enumerated as data.
-/

namespace LeadGenius

/-- Python runtime values relevant to lead fields and rule evaluation. -/
inductive PyVal where
  | none
  | str (s : String)
  | int (n : Int)
  | bool (b : Bool)
  deriving Repr, DecidableEq, BEq

/-- Python truthiness (bool(v)). -/
def pyTruthy : PyVal → Bool
  | .none => false
  | .str s => s != ""
  | .int n => n != 0
  | .bool b => b

/-- Python str(v). -/
def pyStr : PyVal → String
  | .none => "None"
  | .str s => s
  | .int n => toString n
  | .bool b => if b then "True" else "False"

/-- Whether a PyVal is a Python bool. -/
def PyVal.isBool : PyVal → Bool
  | .bool _ => true
  | _ => false

/-- Python `a or b` specialised to the uses below (falsy left operand is
replaced by the right operand). -/
def pyOr (v d : PyVal) : PyVal := if pyTruthy v then v else d

/-- needle is a prefix of hay (character lists). -/
def listPrefixOf : List Char → List Char → Bool
  | [], _ => true
  | _ :: _, [] => false
  | c :: cs, d :: ds => c == d && listPrefixOf cs ds

/-- needle occurs inside hay (character lists). -/
def listInfixOf (needle : List Char) : List Char → Bool
  | [] => needle.isEmpty
  | d :: ds => listPrefixOf needle (d :: ds) || listInfixOf needle ds

/-- Python substring test `needle in hay`. -/
def strIn (needle hay : String) : Bool := listInfixOf needle.toList hay.toList

/-- Python str.lower(), as a character-list map (ASCII case mapping, which
covers every claim input). -/
def strLower (s : String) : String := String.mk (s.toList.map Char.toLower)

/-- Leading and trailing whitespace removed (Python str.strip(), as int() and
float() apply to their argument). -/
def trimChars (cs : List Char) : List Char :=
  ((cs.dropWhile Char.isWhitespace).reverse.dropWhile Char.isWhitespace).reverse

/-- Python s.split("-")[0]: the prefix of s before the first dash (s itself
when there is none). -/
def splitDashHead (s : String) : String :=
  String.mk (s.toList.takeWhile (fun c => c != '-'))

/-- Numeric value of a digit list (most significant first). -/
def digitsVal (ds : List Char) : Nat := ds.foldl (fun a c => a * 10 + (c.toNat - 48)) 0

/-- All characters are digits and there is at least one. -/
def allDigits (ds : List Char) : Bool := !ds.isEmpty && ds.all (fun c => c.isDigit)

/-- Python int(s) on strings: optional sign, digits only; failure is the
raised ValueError. (Underscore separators, an edge form no claim exercises,
are treated as failures.) -/
def pyInt? (s : String) : Option Int :=
  match trimChars s.toList with
  | '+' :: ds => if allDigits ds then some (digitsVal ds : Int) else none
  | '-' :: ds => if allDigits ds then some (-(digitsVal ds : Int)) else none
  | ds => if allDigits ds then some (digitsVal ds : Int) else none

/-- Longest leading run of digits, and the rest. -/
def spanDigits : List Char → (List Char × List Char)
  | [] => ([], [])
  | c :: cs =>
      if c.isDigit then
        let p := spanDigits cs
        (c :: p.1, p.2)
      else ([], c :: cs)

/-- Unsigned decimal: digits with an optional fractional part. -/
def parseUnsigned? (cs : List Char) : Option Rat :=
  let p := spanDigits cs
  match p.2 with
  | [] => if p.1.isEmpty then none else some (digitsVal p.1 : Rat)
  | '.' :: rest =>
      let q := spanDigits rest
      if q.2.isEmpty && (!p.1.isEmpty || !q.1.isEmpty) then
        some ((digitsVal p.1 : Rat) + (digitsVal q.1 : Rat) / ((10 : Rat) ^ q.1.length))
      else none
  | _ => none

/-- Python float(s) on strings restricted to plain decimal forms
(sign, digits, optional fractional part). Scientific and inf/nan forms,
which no claim exercises, are treated as parse failures. -/
def parseDecimal? (s : String) : Option Rat :=
  match trimChars s.toList with
  | '+' :: cs => parseUnsigned? cs
  | '-' :: cs => (parseUnsigned? cs).map (fun q => -q)
  | cs => parseUnsigned? cs

/-- Python float(v): the error case models the raised TypeError/ValueError. -/
def pyFloat : PyVal → Except String Rat
  | .none => .error "TypeError"
  | .bool b => .ok (if b then 1 else 0)
  | .int n => .ok (n : Rat)
  | .str s =>
      match parseDecimal? s with
      | some q => .ok q
      | Option.none => .error "ValueError"

/-- Python int(q) on a float: truncation toward zero. -/
def ratTruncToInt (q : Rat) : Int := if 0 ≤ q then Int.floor q else -(Int.floor (-q))

/-- Lead record (models/lead.py), restricted to the fields the scoring and
persona code reads; defaults are the model's column defaults. -/
structure Lead where
  name : String := ""
  linkedin_url : String := ""
  title : Option String := none
  company : Option String := none
  email : Option String := none
  company_size : Option String := none
  location : Option String := none
  score : Int := 0
  status : String := "new"
  source : String := "manual"
  enrichment_status : String := "pending"
  is_email_verified : Bool := false
  deriving Repr, DecidableEq

/-- An optional string column as the Python attribute value. -/
def optStr : Option String → PyVal
  | Option.none => PyVal.none
  | some s => PyVal.str s

/-- getattr(lead, field, None), over the fields reachable by scoring rules;
an unknown field name yields the getattr default None. -/
def Lead.getattr (l : Lead) : String → PyVal
  | "name" => .str l.name
  | "linkedin_url" => .str l.linkedin_url
  | "title" => optStr l.title
  | "company" => optStr l.company
  | "email" => optStr l.email
  | "company_size" => optStr l.company_size
  | "location" => optStr l.location
  | "score" => .int l.score
  | "status" => .str l.status
  | "source" => .str l.source
  | "enrichment_status" => .str l.enrichment_status
  | "is_email_verified" => .bool l.is_email_verified
  | _ => .none

/-- ScoringRule record (models/scoring.py): field, operator and value are
strings; value is non-nullable in the model. -/
structure ScoringRule where
  field : String
  operator : String
  value : String
  score_delta : Int := 10
  priority : Int := 1
  is_active : Bool := true
  deriving Repr, DecidableEq

/-- LeadService._evaluate_rule. The Except layer carries any Python exception
that could escape; the try/except blocks around the float coercions appear as
the handled error cases of `pyFloat`, so every branch ends in `.ok`. Note the
contains branch: `field_value and rule.value.lower() in str(field_value).lower()`
returns the falsy field value itself (None or the empty string) when the field
is falsy, not a bool. -/
def evalRuleE (lead : Lead) (rule : ScoringRule) : Except String PyVal :=
  let field_value := lead.getattr rule.field
  if rule.operator == "exists" then
    .ok (.bool (field_value != PyVal.none && field_value != PyVal.str ""))
  else if rule.operator == "not_exists" then
    .ok (.bool (field_value == PyVal.none || field_value == PyVal.str ""))
  else if rule.operator == "equals" then
    .ok (.bool (strLower (pyStr field_value) == strLower rule.value))
  else if rule.operator == "contains" then
    .ok (if pyTruthy field_value then
          .bool (strIn (strLower rule.value) (strLower (pyStr field_value)))
         else field_value)
  else if rule.operator == "greater_than" then
    .ok (match pyFloat (pyOr field_value (.int 0)), pyFloat (.str rule.value) with
         | .ok a, .ok b => .bool (decide (b < a))
         | _, _ => .bool false)
  else if rule.operator == "less_than" then
    .ok (match pyFloat (pyOr field_value (.int 0)), pyFloat (.str rule.value) with
         | .ok a, .ok b => .bool (decide (a < b))
         | _, _ => .bool false)
  else
    .ok (.bool false)

/-- The value of _evaluate_rule as seen by its caller; the default is
unreachable since evalRuleE never errors. -/
def evalRuleVal (lead : Lead) (rule : ScoringRule) : PyVal :=
  (evalRuleE lead rule).toOption.getD (PyVal.bool false)

/-- The rules_json entries consulted by LeadService._match_persona
(title_keywords, title_exclude, company_size_min) and by
persona.service.check_persona_match (title_keyword, min_company_size);
`none` models the key being absent from the JSON object. -/
structure PersonaRules where
  title_keywords : Option (List String) := none
  title_exclude : Option (List String) := none
  company_size_min : Option Int := none
  title_keyword : Option String := none
  min_company_size : Option Int := none
  deriving Repr, DecidableEq

/-- Persona record (models/persona.py), restricted to the fields the
matching and scoring code reads. -/
structure Persona where
  rules_json : PersonaRules := {}
  priority : Int := 1
  score_bonus : Int := 50
  is_active : Bool := true
  deriving Repr, DecidableEq

/-- int(lead.company_size.split("-")[0]) under _match_persona's guard and
try/except: none both when company_size is missing/falsy and when int()
raises. -/
def parseLeadSizeMin : Option String → Option Int
  | Option.none => none
  | some s => if s == "" then none else pyInt? (splitDashHead s)

/-- LeadService._match_persona: AND of the configured facets; a facet whose
guard fails (missing key, falsy title, unparsable company size) passes. -/
def matchPersona (lead : Lead) (persona : Persona) : Bool :=
  let rules := persona.rules_json
  let title_lower := strLower (lead.title.getD "")
  let kwFail :=
    match rules.title_keywords with
    | some kws => pyTruthy (optStr lead.title)
        && !(kws.any (fun kw => strIn (strLower kw) title_lower))
    | Option.none => false
  let exFail :=
    match rules.title_exclude with
    | some exs => pyTruthy (optStr lead.title)
        && exs.any (fun ex => strIn (strLower ex) title_lower)
    | Option.none => false
  let sizeFail :=
    match rules.company_size_min, parseLeadSizeMin lead.company_size with
    | some m, some size => decide (size < m)
    | _, _ => false
  !kwFail && !exFail && !sizeFail

/-- The size value computed by persona.service.check_persona_match:
size_val starts at 0 and is only replaced when lead.company_size is truthy
and int() succeeds on the leading token. -/
def leadCompanySizeVal : Option String → Int
  | Option.none => 0
  | some s => if s == "" then 0 else (pyInt? (splitDashHead s)).getD 0

/-- One persona's rules in persona.service.check_persona_match: title_keyword
must occur in a truthy title, and size_val must reach min_company_size. -/
def personaRuleMatch (lead : Lead) (persona : Persona) : Bool :=
  let rules := persona.rules_json
  let titleOk :=
    match rules.title_keyword with
    | some kw =>
        (match lead.title with
         | some t => (t != "") && strIn (strLower kw) (strLower t)
         | Option.none => false)
    | Option.none => true
  let sizeOk :=
    match rules.min_company_size with
    | some m => !(decide (leadCompanySizeVal lead.company_size < m))
    | Option.none => true
  titleOk && sizeOk

/-- persona.service.check_persona_match: true iff any persona matches. -/
def check_persona_match (lead : Lead) (personas : List Persona) : Bool :=
  personas.any (fun p => personaRuleMatch lead p)

/-- LeadService._calculate_score: sum of the active rules' deltas where the
rule evaluates truthy, plus the first matching persona's bonus (the loop
breaks at the first match), clamped to [0, 100]. The active rule and persona
lists are the repository query results, passed as arguments. -/
def leadServiceCalculateScore (rules : List ScoringRule) (personas : List Persona)
    (lead : Lead) : Int :=
  let ruleScore := rules.foldl
    (fun acc r => if pyTruthy (evalRuleVal lead r) then acc + r.score_delta else acc) 0
  let score :=
    match personas.find? (fun p => matchPersona lead p) with
    | some p => ruleScore + p.score_bonus
    | Option.none => ruleScore
  max 0 (min 100 score)

/-- ScoringService._calculate_profile_match. -/
def calculate_profile_match (lead : Lead) : Int :=
  let s0 : Int := 50
  let s1 :=
    match lead.title with
    | some t =>
        if t != "" then
          let tl := strLower t
          if ["vp", "head", "director", "chief", "founder"].any (fun x => strIn x tl) then
            s0 + 30
          else if ["manager", "senior", "lead"].any (fun x => strIn x tl) then
            s0 + 15
          else s0
        else s0
    | Option.none => s0
  let s2 := if lead.linkedin_url != "" then s1 + 10 else s1
  let s3 := if pyTruthy (optStr lead.email) then s2 + 10 else s2
  min 100 s3

/-- ScoringService._calculate_engagement_intent. -/
def calculate_engagement_intent (lead : Lead) : Int :=
  let base : Int := 20
  let s1 :=
    if lead.status == "replied" then 90
    else if lead.status == "contacted" then 60
    else if lead.status == "qualified" then 95
    else if lead.status == "new" then 30
    else base
  let s2 := if lead.source == "social_engagement" then s1 + 10 else s1
  min 100 s2

/-- ScoringService._calculate_company_fit (no clamp in the source). -/
def calculate_company_fit (lead : Lead) : Int :=
  let s : Int := 50
  if pyTruthy (optStr lead.company) then s + 20 else s

/-- The weighted sum of the fallback branch of ScoringService.calculate_score;
the Python float literals 0.45/0.35/0.15/0.05 are modelled as exact rationals
(the clamp-and-truncate below makes the binary-float rounding error
unobservable on every claim input). Activity is the fixed baseline 50. -/
def fallbackWeightedTotal (lead : Lead) : Rat :=
  (calculate_profile_match lead : Rat) * (45 / 100)
    + (calculate_engagement_intent lead : Rat) * (35 / 100)
    + (calculate_company_fit lead : Rat) * (15 / 100)
    + (50 : Rat) * (5 / 100)

/-- The fallback (rule-based) branch of ScoringService.calculate_score:
int(max(0, min(100, total_score))). -/
def fallbackScore (lead : Lead) : Int :=
  ratTruncToInt (max 0 (min 100 (fallbackWeightedTotal lead)))

/-- Outcome of the AI text-generation call inside AIAnalysisService.score_lead:
the provider raising (rate limit past the retry budget included), returning
text that json.loads rejects, or a parsed JSON object. Dict values use PyVal;
a JSON number is .int when integral, which covers every claim input (a
non-integral score behaves identically after the clamp and int()). -/
inductive AIResponse where
  | raised
  | malformed
  | parsed (d : List (String × PyVal))
  deriving Repr, DecidableEq

/-- dict.get(k) with default None. -/
def dictGet (d : List (String × PyVal)) (k : String) : PyVal :=
  match d.find? (fun kv => kv.1 == k) with
  | some kv => kv.2
  | Option.none => PyVal.none

/-- AIAnalysisService.score_lead: never raises; with no client configured it
returns the neutral dict, and on provider failure or unparseable output the
except branch returns the error dict — in both cases with score 50. -/
def score_lead (hasClient : Bool) (resp : AIResponse) : List (String × PyVal) :=
  if !hasClient then
    [("score", .int 50), ("reasoning", .str "AI not configured, using neutral score.")]
  else
    match resp with
    | .raised => [("score", .int 50), ("reasoning", .str "AI scoring failed, check logs.")]
    | .malformed => [("score", .int 50), ("reasoning", .str "AI scoring failed, check logs.")]
    | .parsed d => d

/-- ScoringService.calculate_score. hasClient models ai_analysis_service.client
being configured; fetchRaised models the interaction query (or any other
statement of the AI branch) raising, which the orchestrator's except swallows
before falling through to the fallback formula. The score is returned when it
is not None and isinstance(score, (int, float)) — a Python bool is an int, so
the .bool case converts. The notes/custom_fields side effects do not change
the returned value and are omitted. -/
def calculate_score (hasClient : Bool) (fetchRaised : Bool) (resp : AIResponse)
    (lead : Lead) : Int :=
  if hasClient then
    if fetchRaised then fallbackScore lead
    else
      match dictGet (score_lead hasClient resp) "score" with
      | .int n => max 0 (min 100 n)
      | .bool b => max 0 (min 100 (if b then (1 : Int) else 0))
      | _ => fallbackScore lead
  else fallbackScore lead

/-- The fields of the AI profile-evaluation dict consulted by
AnalysisService._process_interaction; `none` models an absent key. A
persona_fit_score of a non-numeric JSON type would make `// 2` raise inside
the per-item try, skipping the item — no claim exercises that, so the field
is typed as an optional integer. -/
structure AIEval where
  profile_type : Option String := none
  role_category : Option String := none
  seniority_level : Option String := none
  intent_from_comment : Option String := none
  persona_fit_score : Option Int := none
  deriving Repr, DecidableEq

/-- AIAnalysisService._fallback_evaluation: the rule-based heuristic used
when the AI client is absent or its call fails. -/
def fallback_evaluation (headline : String) : AIEval :=
  let seniority :=
    if ["CEO", "Founder", "President"].any (fun x => strIn x headline) then "C-level"
    else if ["VP", "Vice President"].any (fun x => strIn x headline) then "VP"
    else if strIn "Director" headline then "Director"
    else if strIn "Manager" headline then "Manager"
    else "IC"
  let excluded := ["student", "recruiter", "intern"].any (fun x => strIn x (strLower headline))
  { profile_type :=
      some (if strIn "Company" headline || strIn "Ltd" headline then "company" else "individual")
    role_category := some (if excluded then "irrelevant" else "influencer")
    seniority_level := some seniority
    intent_from_comment := some "medium"
    persona_fit_score := some (if excluded then 0 else 50) }

/-- Outcome of the AI call inside AIAnalysisService.evaluate_profile; a
json.loads failure raises inside the same try and is folded into `.raised`. -/
inductive EvalResponse where
  | raised
  | parsed (e : AIEval)
  deriving Repr, DecidableEq

/-- AIAnalysisService.evaluate_profile: AI result when available, otherwise
the rule-based fallback on the headline. -/
def evaluate_profile (hasClient : Bool) (resp : EvalResponse) (headline : String) : AIEval :=
  if !hasClient then fallback_evaluation headline
  else
    match resp with
    | .raised => fallback_evaluation headline
    | .parsed e => e

/-- PostInteraction row as built by _process_interaction (the model class
lives outside the scoring sources; its fields are taken from the constructor
call). The raw ai_insights payload is not consulted by any claim. -/
structure PostInteraction where
  type : String
  content : String
  actor_name : Option String
  actor_headline : String
  actor_profile_url : Option String
  classification : String
  relevance_score : Int
  lead_id : Option Nat := none
  deriving Repr, DecidableEq

/-- The relevance score computed by _process_interaction: base 10 for a
comment and 3 otherwise, plus persona_fit_score // 2 (Python floor division),
plus 20 on high comment intent; a role_category of "irrelevant" forces the
final score to 0. -/
def interactionRelevance (type : String) (ai_eval : AIEval) : Int :=
  let base : Int := if type == "COMMENT" then 10 else 3
  let s1 := base + Int.fdiv (ai_eval.persona_fit_score.getD 0) 2
  let s2 := if ai_eval.intent_from_comment == some "high" then s1 + 20 else s1
  if ai_eval.role_category == some "irrelevant" then 0 else s2

/-- The classification computed by _process_interaction alongside the score:
"irrelevant" when the role category is irrelevant, else "high" at score ≥ 70,
"medium" at ≥ 40, else "low". -/
def interactionClassification (type : String) (ai_eval : AIEval) : String :=
  let base : Int := if type == "COMMENT" then 10 else 3
  let s1 := base + Int.fdiv (ai_eval.persona_fit_score.getD 0) 2
  let s2 := if ai_eval.intent_from_comment == some "high" then s1 + 20 else s1
  if ai_eval.role_category == some "irrelevant" then "irrelevant"
  else if s2 ≥ 70 then "high"
  else if s2 ≥ 40 then "medium"
  else "low"

/-- AnalysisService._process_interaction: evaluates the actor's profile
(AI with fallback) and builds the interaction record with the relevance
score and classification above (the source computes both in one pass;
they are split here into the two named functions). -/
def process_interaction (hasClient : Bool) (resp : EvalResponse) (type : String)
    (author_name : Option String) (author_headline : Option String)
    (author_profile_url : Option String) (text : String) : PostInteraction :=
  let headline := author_headline.getD ""
  let ai_eval := evaluate_profile hasClient resp headline
  { type := type
    content := text
    actor_name := author_name
    actor_headline := headline
    actor_profile_url := author_profile_url
    classification := interactionClassification type ai_eval
    relevance_score := interactionRelevance type ai_eval }

/-- Lead row as written by the ingestion pipeline (models/lead.py columns the
claims consult; custom_fields' provenance payload is mirrored by the tags). -/
structure LeadRow where
  id : Nat
  org_id : Nat
  campaign_id : Option Nat := none
  name : String
  linkedin_url : String
  title : Option String := none
  score : Int
  source : String
  status : String
  enrichment_status : String
  tags : List String
  deriving Repr, DecidableEq

/-- The lead table; ids are allocated from nextId. -/
structure DB where
  leads : List LeadRow := []
  nextId : Nat := 0
  deriving Repr, DecidableEq

/-- LinkedInPost row fields the workflow reads and writes. -/
structure PostRow where
  id : Nat
  org_id : Nat
  post_url : String
  status : String := "processing"
  post_content : String := ""
  author_name : String := "Unknown"
  total_comments : Nat := 0
  total_likes : Nat := 0
  deriving Repr, DecidableEq

/-- Python `s or default` for optional strings (None and "" both fall back). -/
def orDefault (o : Option String) (d : String) : String :=
  match o with
  | some s => if s != "" then s else d
  | Option.none => d

/-- Result of AnalysisService._create_lead_from_interaction: the updated lead
table, the lead_id written onto the interaction, and whether a new lead row
was created. -/
structure CreateLeadResult where
  db : DB
  lead_id : Option Nat
  created : Bool
  deriving Repr, DecidableEq

/-- AnalysisService._create_lead_from_interaction. The dedup lookup mirrors
the source exactly: select(Lead).where(Lead.linkedin_url == actor_profile_url)
filters on linkedin_url only — no org filter — and a None actor_profile_url
matches no row (SQL NULL comparison); first() takes the first match. On a
miss a new lead is created with the interaction's relevance score, source
"linkedin_post_analysis", status "new", enrichment_status "pending" and the
discovery tags. The fire-and-forget Apollo enrichment trigger does not change
the lead table and is omitted. -/
def create_lead_from_interaction (db : DB) (itx : PostInteraction) (post : PostRow)
    (campaign_id : Option Nat) : CreateLeadResult :=
  let existing : Option LeadRow :=
    match itx.actor_profile_url with
    | some url => db.leads.find? (fun l => l.linkedin_url == url)
    | Option.none => none
  match existing with
  | some l => { db := db, lead_id := some l.id, created := false }
  | Option.none =>
      let lead : LeadRow :=
        { id := db.nextId
          org_id := post.org_id
          campaign_id := campaign_id
          name := orDefault itx.actor_name "Unknown"
          linkedin_url := (itx.actor_profile_url.getD "")
          title := some itx.actor_headline
          score := itx.relevance_score
          source := "linkedin_post_analysis"
          status := "new"
          enrichment_status := "pending"
          tags := ["ai_discovered", itx.classification, strLower itx.type] }
      { db := { leads := db.leads ++ [lead], nextId := db.nextId + 1 }
        lead_id := some lead.id
        created := true }

/-- LeadRepository.get_by_linkedin_url: the repository's dedup lookup, scoped
by organization. -/
def get_by_linkedin_url (db : DB) (org_id : Nat) (linkedin_url : String) : Option LeadRow :=
  db.leads.find? (fun l => l.org_id == org_id && l.linkedin_url == linkedin_url)

/-- One step-1 dataset item: the fields the workflow reads (text via its
ordered key fallbacks, author name). -/
structure PostDetailItem where
  text : String := ""
  author_name : String := "Unknown"
  deriving Repr, DecidableEq

/-- One normalized comment or reaction item together with the outcome of the
AI profile evaluation for its author (the external call's response). The raw
payload's ordered key fallbacks are collapsed into the normalized fields, as
in the workflow's normalized_comment/normalized_like dicts. -/
structure CommentItem where
  text : String := ""
  author_name : Option String := none
  author_headline : Option String := none
  author_profile_url : Option String := none
  ai : EvalResponse := .raised
  deriving Repr, DecidableEq

/-- Outcomes of the three upstream fetches and the AI availability flag.
A `none` step models call_actor returning no dataset id (actor failure,
timeout, or a raised client error — call_actor catches and returns None);
`some items` models a successful call whose dataset holds `items`
(get_dataset_items_async returns [] rather than raising). -/
structure WorkflowEnv where
  hasClient : Bool := false
  step1 : Option (List PostDetailItem) := none
  step2 : Option (List CommentItem) := none
  step3 : Option (List CommentItem) := none
  deriving Repr, DecidableEq

/-- Result of one run of _execute_apify_workflow: the lead table, the post
row, the status written to the linked campaign (none when no campaign is
linked), and the new-lead counter. -/
structure WorkflowResult where
  db : DB
  post : PostRow
  campaign_status : Option String
  new_leads : Nat
  deriving Repr, DecidableEq

/-- AnalysisService._execute_apify_workflow as a function of the external
outcomes and the persistent lead table. A step-1 call failure raises, landing
in the outer handler which marks the post failed and, when campaign-linked,
the campaign failed; every other fetch outcome proceeds (a failed step-2 or
step-3 call leaves its list empty). Comments are processed and, at relevance
≥ 30, resolved-or-created as leads; likes are recorded as interactions only.
The AI post-content analysis, interaction persistence and campaign lead
counter do not affect any claim and are kept out of the state. -/
def execute_apify_workflow (env : WorkflowEnv) (db : DB) (post : PostRow)
    (campaign_id : Option Nat) : WorkflowResult :=
  match env.step1 with
  | Option.none =>
      { db := db
        post := { post with status := "failed" }
        campaign_status := if campaign_id.isSome then some "failed" else none
        new_leads := 0 }
  | some items =>
      let post :=
        match items with
        | [] => post
        | data :: _ => { post with post_content := data.text, author_name := data.author_name }
      let comments := env.step2.getD []
      let likes := env.step3.getD []
      let step := fun (acc : DB × Nat) (c : CommentItem) =>
        let itx := process_interaction env.hasClient c.ai "COMMENT"
          c.author_name c.author_headline c.author_profile_url c.text
        if itx.relevance_score ≥ 30 then
          let r := create_lead_from_interaction acc.1 itx post campaign_id
          (r.db, if r.created then acc.2 + 1 else acc.2)
        else acc
      let done := comments.foldl step (db, 0)
      { db := done.1
        post := { post with
          total_comments := comments.length
          total_likes := likes.length
          status := "completed" }
        campaign_status := if campaign_id.isSome then some "completed" else none
        new_leads := done.2 }

/-! Concrete inputs used by counterexamples and witnesses. -/

/-- Scenario A lead: title "VP of Sales", email set, profile URL set,
status "new", source "manual", no company (the defaults). -/
def scenALead : Lead :=
  { name := "Jane", linkedin_url := "https://linkedin.com/in/jane",
    title := some "VP of Sales", email := some "jane@example.com" }

/-- A lead with no title at all. -/
def noTitleLead : Lead := { name := "X", linkedin_url := "https://linkedin.com/in/x" }

/-- A contains-rule on the title field. -/
def titleContainsRule : ScoringRule := { field := "title", operator := "contains", value := "vp" }

/-! Shared helper lemmas. -/

deriving instance DecidableEq for Except

theorem clampInt_bounds (n : Int) : 0 ≤ max 0 (min 100 n) ∧ max 0 (min 100 n) ≤ 100 :=
  ⟨le_max_left _ _, max_le (by norm_num) (min_le_left _ _)⟩

theorem scenA_profile : calculate_profile_match scenALead = 100 := by decide

theorem scenA_engagement : calculate_engagement_intent scenALead = 30 := by decide

theorem scenA_company : calculate_company_fit scenALead = 50 := by decide

theorem scenA_weighted : fallbackWeightedTotal scenALead = 131 / 2 := by
  unfold fallbackWeightedTotal
  rw [scenA_profile, scenA_engagement, scenA_company]
  norm_num

theorem scenA_clamped : max (0 : Rat) (min 100 (131 / 2)) = 131 / 2 := by
  rw [min_eq_right (by norm_num), max_eq_right (by norm_num)]

theorem scenA_fallbackScore : fallbackScore scenALead = 65 := by
  unfold fallbackScore
  rw [scenA_weighted, scenA_clamped]
  unfold ratTruncToInt
  rw [if_pos (by norm_num)]
  refine Int.floor_eq_iff.mpr ?_
  norm_num

theorem scenA_round : round ((131 : Rat) / 2) = 66 := by
  rw [round_eq, show ((131 : Rat) / 2 + 1 / 2) = ((66 : Int) : Rat) by norm_num,
    Int.floor_intCast]

theorem ratTrunc_clamp_bounds (q : Rat) :
    0 ≤ ratTruncToInt (max 0 (min 100 q)) ∧ ratTruncToInt (max 0 (min 100 q)) ≤ 100 := by
  have h0 : (0 : Rat) ≤ max 0 (min 100 q) := le_max_left _ _
  have h1 : max 0 (min 100 q) ≤ 100 := max_le (by norm_num) (min_le_left _ _)
  unfold ratTruncToInt
  rw [if_pos h0]
  refine ⟨Int.le_floor.mpr (by exact_mod_cast h0), ?_⟩
  calc Int.floor (max 0 (min 100 q)) ≤ Int.floor ((100 : Int) : Rat) := Int.floor_mono (by exact_mod_cast h1)
    _ = 100 := Int.floor_intCast 100

theorem fallbackScore_bounds (lead : Lead) :
    0 ≤ fallbackScore lead ∧ fallbackScore lead ≤ 100 :=
  ratTrunc_clamp_bounds (fallbackWeightedTotal lead)

theorem calculate_score_bounds (hasClient fetchRaised : Bool) (resp : AIResponse) (lead : Lead) :
    0 ≤ calculate_score hasClient fetchRaised resp lead ∧
      calculate_score hasClient fetchRaised resp lead ≤ 100 := by
  unfold calculate_score
  split
  · split
    · exact fallbackScore_bounds lead
    · split
      · exact clampInt_bounds _
      · exact clampInt_bounds _
      · exact fallbackScore_bounds lead
  · exact fallbackScore_bounds lead

/-! Claim C5. -/

/-- Claim C5 counterexample: with the field title missing (None) and operator
contains, _evaluate_rule returns the field value None itself — a falsy value,
but not a boolean — so the claim that it always returns True or False fails
at this input (it does not raise). -/
theorem C5_contains_returns_none_counterexample :
    evalRuleE noTitleLead titleContainsRule = Except.ok PyVal.none ∧
    evalRuleVal noTitleLead titleContainsRule = PyVal.none ∧
    PyVal.isBool PyVal.none = false := by decide

/-- Claim C5, amended: for every lead and rule, _evaluate_rule never raises —
it always returns ok — and the returned value is either a genuine boolean or
a falsy value (the contains branch returns the falsy field value itself),
which the caller's truthiness test treats as non-match. -/
theorem C5_never_raises_boolish (lead : Lead) (rule : ScoringRule) :
    ∃ v, evalRuleE lead rule = Except.ok v ∧
      (PyVal.isBool v = true ∨ pyTruthy v = false) := by
  unfold evalRuleE
  split
  · exact ⟨_, rfl, Or.inl rfl⟩
  · split
    · exact ⟨_, rfl, Or.inl rfl⟩
    · split
      · exact ⟨_, rfl, Or.inl rfl⟩
      · split
        · refine ⟨_, rfl, ?_⟩
          split
          · exact Or.inl rfl
          · rename_i h
            exact Or.inr (by simpa using h)
        · split
          · refine ⟨_, rfl, ?_⟩
            split
            · exact Or.inl rfl
            · exact Or.inl rfl
          · split
            · refine ⟨_, rfl, ?_⟩
              split
              · exact Or.inl rfl
              · exact Or.inl rfl
            · exact ⟨_, rfl, Or.inl rfl⟩

/-! Claim C6. -/

/-- Claim C6 counterexample: on the Scenario A lead the weighted sum is 65.5;
rounding it (as the claim states) gives 66, but the code truncates with
int() and returns 65 — the "round of the weighted sum" description fails at
the claim's own scenario. -/
theorem C6_round_vs_truncate_counterexample :
    fallbackWeightedTotal scenALead = 131 / 2 ∧
    round (fallbackWeightedTotal scenALead) = 66 ∧
    fallbackScore scenALead = 65 ∧
    fallbackScore scenALead ≠ round (fallbackWeightedTotal scenALead) := by
  refine ⟨scenA_weighted, ?_, scenA_fallbackScore, ?_⟩
  · rw [scenA_weighted, scenA_round]
  · rw [scenA_weighted, scenA_round, scenA_fallbackScore]
    decide

/-- Claim C6, amended: the deterministic scorer computes the weighted sum
profile*0.45 + engagement*0.35 + company*0.15 + activity*0.05, clamps it to
[0,100] and truncates with int() (not round); the Scenario A lead gets
sub-scores profile=100, engagement=30, company=50, activity=50 and the
returned score 65. -/
theorem C6_truncated_weighted_score :
    (∀ lead, 0 ≤ fallbackScore lead ∧ fallbackScore lead ≤ 100) ∧
    calculate_profile_match scenALead = 100 ∧
    calculate_engagement_intent scenALead = 30 ∧
    calculate_company_fit scenALead = 50 ∧
    fallbackWeightedTotal scenALead = 131 / 2 ∧
    fallbackScore scenALead = ratTruncToInt (max 0 (min 100 (131 / 2))) ∧
    fallbackScore scenALead = 65 :=
  ⟨fun lead => fallbackScore_bounds lead, scenA_profile, scenA_engagement, scenA_company,
    scenA_weighted, by unfold fallbackScore; rw [scenA_weighted], scenA_fallbackScore⟩

/-! Claim C2. -/

/-- Claim C2 counterexample: when the AI provider raises mid-call, score_lead
swallows the exception and returns the neutral error dict with score 50, so
calculate_score returns 50 — not the deterministic weighted formula, which on
the Scenario A lead yields 65. -/
theorem C2_provider_exception_neutral_counterexample :
    calculate_score true false AIResponse.raised scenALead = 50 ∧
    fallbackScore scenALead = 65 ∧
    calculate_score true false AIResponse.raised scenALead ≠ fallbackScore scenALead := by
  refine ⟨by decide, scenA_fallbackScore, ?_⟩
  rw [scenA_fallbackScore, show calculate_score true false AIResponse.raised scenALead = 50
    by decide]
  decide

/-- Claim C2, amended: no exception escapes calculate_score and its result is
always an integer in [0,100]; but on a provider exception or malformed JSON
the returned value is the adapter's neutral error score 50 (clamped), not the
deterministic formula — the deterministic weighted formula is used when the
adapter's dict lacks a usable numeric score field, when the orchestrator's AI
branch itself raises, and when no client is configured. -/
theorem C2_fallback_policy (fetchRaised : Bool) (resp : AIResponse) (lead : Lead)
    (d : List (String × PyVal)) :
    (0 ≤ calculate_score true fetchRaised resp lead ∧
      calculate_score true fetchRaised resp lead ≤ 100) ∧
    calculate_score true false AIResponse.raised lead = 50 ∧
    calculate_score true false AIResponse.malformed lead = 50 ∧
    (dictGet d "score" = PyVal.none →
      calculate_score true false (AIResponse.parsed d) lead = fallbackScore lead) ∧
    calculate_score true true resp lead = fallbackScore lead ∧
    calculate_score false fetchRaised resp lead = fallbackScore lead := by
  refine ⟨calculate_score_bounds true fetchRaised resp lead, rfl, rfl, ?_, rfl, rfl⟩
  intro h
  unfold calculate_score score_lead
  simp only [Bool.not_true, if_false, if_true, Bool.false_eq_true, ite_false, ite_true]
  rw [h]

/-- Witness for C2_fallback_policy: a parsed response whose dict lacks the
score field makes the orchestrator use the deterministic formula. -/
theorem C2_fallback_policy_witness :
    dictGet [] "score" = PyVal.none ∧
    calculate_score true false (AIResponse.parsed []) scenALead = fallbackScore scenALead :=
  ⟨rfl, (C2_fallback_policy false (AIResponse.parsed []) scenALead []).2.2.2.1 rfl⟩

/-! Bounds on the ingestion relevance score. -/

theorem fallback_fit_bounds (headline : String) :
    0 ≤ (fallback_evaluation headline).persona_fit_score.getD 0 ∧
      (fallback_evaluation headline).persona_fit_score.getD 0 ≤ 100 := by
  unfold fallback_evaluation
  simp only [Option.getD_some]
  split <;> norm_num

theorem evaluate_profile_fit_bounds (hasClient : Bool) (resp : EvalResponse) (headline : String)
    (hfit : ∀ e, resp = EvalResponse.parsed e →
      0 ≤ e.persona_fit_score.getD 0 ∧ e.persona_fit_score.getD 0 ≤ 100) :
    0 ≤ (evaluate_profile hasClient resp headline).persona_fit_score.getD 0 ∧
      (evaluate_profile hasClient resp headline).persona_fit_score.getD 0 ≤ 100 := by
  unfold evaluate_profile
  split
  · exact fallback_fit_bounds headline
  · match resp with
    | .raised => exact fallback_fit_bounds headline
    | .parsed e => exact hfit e rfl

theorem interactionRelevance_bounds (type : String) (e : AIEval)
    (h1 : 0 ≤ e.persona_fit_score.getD 0) (h2 : e.persona_fit_score.getD 0 ≤ 100) :
    0 ≤ interactionRelevance type e ∧ interactionRelevance type e ≤ 80 := by
  unfold interactionRelevance
  have hdiv : Int.fdiv (e.persona_fit_score.getD 0) 2 = e.persona_fit_score.getD 0 / 2 :=
    Int.fdiv_eq_ediv _ (by norm_num)
  dsimp only
  rw [hdiv]
  split
  · norm_num
  · split <;> split <;> omega

theorem relevance_bounds_aux (hasClient : Bool) (resp : EvalResponse) (type : String)
    (nm hl url : Option String) (text : String)
    (hfit : ∀ e, resp = EvalResponse.parsed e →
      0 ≤ e.persona_fit_score.getD 0 ∧ e.persona_fit_score.getD 0 ≤ 100) :
    0 ≤ (process_interaction hasClient resp type nm hl url text).relevance_score ∧
      (process_interaction hasClient resp type nm hl url text).relevance_score ≤ 80 := by
  have hb := evaluate_profile_fit_bounds hasClient resp (hl.getD "") hfit
  unfold process_interaction
  dsimp only
  exact interactionRelevance_bounds type _ hb.1 hb.2

/-- The new-lead branch of _create_lead_from_interaction: when a lead is
created, the table grows by exactly the new row, whose score is the
interaction's relevance score and whose tags carry the discovery provenance. -/
theorem create_lead_created_aux (db : DB) (itx : PostInteraction) (post : PostRow)
    (camp : Option Nat)
    (hcreated : (create_lead_from_interaction db itx post camp).created = true) :
    ∃ row, (create_lead_from_interaction db itx post camp).db.leads = db.leads ++ [row] ∧
      (create_lead_from_interaction db itx post camp).lead_id = some row.id ∧
      row.id = db.nextId ∧
      row.org_id = post.org_id ∧
      row.score = itx.relevance_score ∧
      row.linkedin_url = itx.actor_profile_url.getD "" ∧
      row.tags = ["ai_discovered", itx.classification, strLower itx.type] := by
  unfold create_lead_from_interaction at hcreated ⊢
  cases hurl : itx.actor_profile_url with
  | none =>
      simp only [hurl] at hcreated ⊢
      exact ⟨_, rfl, rfl, rfl, rfl, rfl, rfl, rfl⟩
  | some u =>
      cases hfind : db.leads.find? (fun l => l.linkedin_url == u) with
      | none =>
          simp only [hurl, hfind] at hcreated ⊢
          exact ⟨_, rfl, rfl, rfl, rfl, rfl, rfl, rfl⟩
      | some l =>
          simp [hurl, hfind] at hcreated

/-! Claim C1. -/

/-- A malformed AI profile evaluation with an out-of-range persona fit. -/
def oversizedEval : AIEval := { role_category := some "influencer", persona_fit_score := some 300 }

/-- The interaction built from a comment whose AI evaluation returned
persona_fit_score 300. -/
def oversizedItx : PostInteraction :=
  process_interaction true (EvalResponse.parsed oversizedEval) "COMMENT"
    (some "Alice") (some "Head of Ops") (some "https://linkedin.com/in/alice") "interesting"

/-- A post row for the ingestion counterexamples. -/
def ingestPost : PostRow := { id := 7, org_id := 1, post_url := "https://linkedin.com/posts/1" }

/-- Scenario B evaluation: persona fit 80, high comment intent. -/
def scenBEval : AIEval :=
  { role_category := some "decision_maker", intent_from_comment := some "high",
    persona_fit_score := some 80 }

/-- Claim C1 counterexample: when the AI profile evaluation returns
persona_fit_score 300 (nothing validates the parsed JSON), the comment's
relevance score is 10 + 300 // 2 = 160, it passes the ≥ 30 creation gate, and
the auto-created lead is persisted with score 160 — outside [0, 100]. -/
theorem C1_ingestion_score_overflow_counterexample :
    oversizedItx.relevance_score = 160 ∧
    30 ≤ oversizedItx.relevance_score ∧
    (create_lead_from_interaction { leads := [], nextId := 0 } oversizedItx ingestPost none).created = true ∧
    (∃ row ∈ (create_lead_from_interaction { leads := [], nextId := 0 } oversizedItx ingestPost none).db.leads,
      row.score = 160) ∧
    ¬((160 : Int) ≤ 100) := by decide

/-- Claim C1, amended: the orchestrator path (AI or deterministic fallback)
and the rule-plus-persona path always return an integer in [0, 100]; the
initial score of a lead auto-created by the ingestion pipeline equals the
interaction's relevance score and lies in [0, 100] provided the profile
evaluation's persona_fit_score lies in [0, 100] (the rule-based fallback
always satisfies this; the parsed AI output is not validated). -/
theorem C1_score_bounds (hasClient fetchRaised : Bool) (resp : AIResponse)
    (rules : List ScoringRule) (personas : List Persona) (lead lead2 : Lead)
    (hc2 : Bool) (eresp : EvalResponse) (type : String) (nm hl url : Option String)
    (text : String) (db : DB) (post : PostRow) (camp : Option Nat)
    (hfit : ∀ e, eresp = EvalResponse.parsed e →
      0 ≤ e.persona_fit_score.getD 0 ∧ e.persona_fit_score.getD 0 ≤ 100) :
    (0 ≤ calculate_score hasClient fetchRaised resp lead ∧
      calculate_score hasClient fetchRaised resp lead ≤ 100) ∧
    (0 ≤ leadServiceCalculateScore rules personas lead2 ∧
      leadServiceCalculateScore rules personas lead2 ≤ 100) ∧
    (0 ≤ (process_interaction hc2 eresp type nm hl url text).relevance_score ∧
      (process_interaction hc2 eresp type nm hl url text).relevance_score ≤ 100) ∧
    ((create_lead_from_interaction db (process_interaction hc2 eresp type nm hl url text) post camp).created = true →
      ∃ row,
        (create_lead_from_interaction db (process_interaction hc2 eresp type nm hl url text) post camp).db.leads
          = db.leads ++ [row] ∧
        row.score = (process_interaction hc2 eresp type nm hl url text).relevance_score ∧
        0 ≤ row.score ∧ row.score ≤ 100) := by
  have hrel := relevance_bounds_aux hc2 eresp type nm hl url text hfit
  refine ⟨calculate_score_bounds hasClient fetchRaised resp lead, ?_, ?_, ?_⟩
  · unfold leadServiceCalculateScore
    exact clampInt_bounds _
  · exact ⟨hrel.1, le_trans hrel.2 (by norm_num)⟩
  · intro hcreated
    obtain ⟨row, hleads, _, _, _, hscore, _, _⟩ :=
      create_lead_created_aux db (process_interaction hc2 eresp type nm hl url text) post camp hcreated
    exact ⟨row, hleads, hscore, by omega, by omega⟩

/-- Witness for C1_score_bounds at a concrete well-formed AI evaluation
(persona fit 80, high intent) on an empty lead table. -/
theorem C1_score_bounds_witness :
    (0 ≤ calculate_score true false AIResponse.raised scenALead ∧
      calculate_score true false AIResponse.raised scenALead ≤ 100) ∧
    (0 ≤ leadServiceCalculateScore [] [] scenALead ∧
      leadServiceCalculateScore [] [] scenALead ≤ 100) ∧
    (0 ≤ (process_interaction true (EvalResponse.parsed scenBEval) "COMMENT"
        (some "Bob") (some "CTO") (some "https://linkedin.com/in/bob") "how do I buy").relevance_score ∧
      (process_interaction true (EvalResponse.parsed scenBEval) "COMMENT"
        (some "Bob") (some "CTO") (some "https://linkedin.com/in/bob") "how do I buy").relevance_score ≤ 100) ∧
    ((create_lead_from_interaction { leads := [], nextId := 0 }
        (process_interaction true (EvalResponse.parsed scenBEval) "COMMENT"
          (some "Bob") (some "CTO") (some "https://linkedin.com/in/bob") "how do I buy")
        ingestPost none).created = true →
      ∃ row,
        (create_lead_from_interaction { leads := [], nextId := 0 }
          (process_interaction true (EvalResponse.parsed scenBEval) "COMMENT"
            (some "Bob") (some "CTO") (some "https://linkedin.com/in/bob") "how do I buy")
          ingestPost none).db.leads = [] ++ [row] ∧
        row.score = (process_interaction true (EvalResponse.parsed scenBEval) "COMMENT"
          (some "Bob") (some "CTO") (some "https://linkedin.com/in/bob") "how do I buy").relevance_score ∧
        0 ≤ row.score ∧ row.score ≤ 100) :=
  C1_score_bounds true false AIResponse.raised [] [] scenALead scenALead true
    (EvalResponse.parsed scenBEval) "COMMENT" (some "Bob") (some "CTO")
    (some "https://linkedin.com/in/bob") "how do I buy"
    { leads := [], nextId := 0 } ingestPost none
    (by intro e he; cases he; exact ⟨by decide, by decide⟩)

/-! Claim C10. -/

/-- Claim C10: assuming the profile evaluation's persona_fit_score is in
[0, 100] (the fallback guarantees this), every processed interaction gets a
relevance score in [0, 80] — base 3 or 10 plus at most 50 from half the fit
plus at most 20 intent boost, forced to 0 on an irrelevant role — and every
lead auto-created from a qualifying interaction starts with score equal to
that relevance score, hence in [30, 80]. -/
theorem C10_relevance_and_initial_score (hasClient : Bool) (resp : EvalResponse)
    (type : String) (nm hl url : Option String) (text : String)
    (db : DB) (post : PostRow) (camp : Option Nat)
    (hfit : ∀ e, resp = EvalResponse.parsed e →
      0 ≤ e.persona_fit_score.getD 0 ∧ e.persona_fit_score.getD 0 ≤ 100) :
    (0 ≤ (process_interaction hasClient resp type nm hl url text).relevance_score ∧
      (process_interaction hasClient resp type nm hl url text).relevance_score ≤ 80) ∧
    ((evaluate_profile hasClient resp (hl.getD "")).role_category = some "irrelevant" →
      (process_interaction hasClient resp type nm hl url text).relevance_score = 0) ∧
    (30 ≤ (process_interaction hasClient resp type nm hl url text).relevance_score →
      (create_lead_from_interaction db (process_interaction hasClient resp type nm hl url text) post camp).created = true →
      ∃ row,
        (create_lead_from_interaction db (process_interaction hasClient resp type nm hl url text) post camp).db.leads
          = db.leads ++ [row] ∧
        row.score = (process_interaction hasClient resp type nm hl url text).relevance_score ∧
        30 ≤ row.score ∧ row.score ≤ 80) := by
  have hrel := relevance_bounds_aux hasClient resp type nm hl url text hfit
  refine ⟨hrel, ?_, ?_⟩
  · intro hirr
    unfold process_interaction interactionRelevance
    dsimp only
    rw [hirr]
    simp
  · intro hge hcreated
    obtain ⟨row, hleads, _, _, _, hscore, _, _⟩ :=
      create_lead_created_aux db (process_interaction hasClient resp type nm hl url text)
        post camp hcreated
    exact ⟨row, hleads, hscore, by omega, by omega⟩

/-- Witness for C10_relevance_and_initial_score: the Scenario B comment
(persona fit 80, high intent) has relevance 10 + 40 + 20 = 70 and creates a
lead with score 70 on an empty table. -/
theorem C10_relevance_witness :
    (0 ≤ (process_interaction true (EvalResponse.parsed scenBEval) "COMMENT"
        (some "Ann") (some "CEO") (some "https://linkedin.com/in/ann") "need this").relevance_score ∧
      (process_interaction true (EvalResponse.parsed scenBEval) "COMMENT"
        (some "Ann") (some "CEO") (some "https://linkedin.com/in/ann") "need this").relevance_score ≤ 80) ∧
    (process_interaction true (EvalResponse.parsed scenBEval) "COMMENT"
      (some "Ann") (some "CEO") (some "https://linkedin.com/in/ann") "need this").relevance_score = 70 :=
  ⟨(C10_relevance_and_initial_score true (EvalResponse.parsed scenBEval) "COMMENT"
      (some "Ann") (some "CEO") (some "https://linkedin.com/in/ann") "need this"
      { leads := [], nextId := 0 } ingestPost none
      (by intro e he; cases he; exact ⟨by decide, by decide⟩)).1,
    by decide⟩

/-! Claim C3. -/

/-- The empty lead table. -/
def emptyDB : DB := { leads := [], nextId := 0 }

/-- First qualifying interaction for the jane profile URL. -/
def janeItx1 : PostInteraction :=
  { type := "COMMENT", content := "great point", actor_name := some "Jane",
    actor_headline := "VP of Sales", actor_profile_url := some "https://linkedin.com/in/jane",
    classification := "medium", relevance_score := 45 }

/-- Second qualifying interaction for the same jane profile URL. -/
def janeItx2 : PostInteraction :=
  { type := "COMMENT", content := "tell me more", actor_name := some "Jane",
    actor_headline := "VP of Sales", actor_profile_url := some "https://linkedin.com/in/jane",
    classification := "high", relevance_score := 70 }

/-- Claim C3: ingesting two qualifying interactions whose actors share one
canonical profile URL — the lead table persists across workflow runs, so one
run or two makes no difference — yields exactly one lead row with that URL;
the first call creates it with id nextId and the second call links its
interaction to that same id without creating a duplicate. -/
theorem C3_dedup_single_lead (db : DB) (u : String)
    (i1 i2 : PostInteraction) (p1 p2 : PostRow) (c1 c2 : Option Nat)
    (hu1 : i1.actor_profile_url = some u) (hu2 : i2.actor_profile_url = some u)
    (hno : ∀ l ∈ db.leads, l.linkedin_url ≠ u) :
    (create_lead_from_interaction db i1 p1 c1).created = true ∧
    (create_lead_from_interaction (create_lead_from_interaction db i1 p1 c1).db i2 p2 c2).created
      = false ∧
    (create_lead_from_interaction (create_lead_from_interaction db i1 p1 c1).db i2 p2 c2).db.leads.length
      = db.leads.length + 1 ∧
    ((create_lead_from_interaction (create_lead_from_interaction db i1 p1 c1).db i2 p2 c2).db.leads.filter
        (fun l => l.linkedin_url == u)).length = 1 ∧
    (create_lead_from_interaction db i1 p1 c1).lead_id = some db.nextId ∧
    (create_lead_from_interaction (create_lead_from_interaction db i1 p1 c1).db i2 p2 c2).lead_id
      = some db.nextId := by
  have hfind1 : db.leads.find? (fun l => l.linkedin_url == u) = none := by
    rw [List.find?_eq_none]
    intro x hx
    simpa using hno x hx
  have hc1 : (create_lead_from_interaction db i1 p1 c1).created = true := by
    unfold create_lead_from_interaction
    simp [hu1, hfind1]
  obtain ⟨row, hleads, hlid, hid, _, _, hurlrow, _⟩ :=
    create_lead_created_aux db i1 p1 c1 hc1
  rw [hu1] at hurlrow
  obtain ⟨D, hD⟩ : ∃ D, (create_lead_from_interaction db i1 p1 c1).db = D := ⟨_, rfl⟩
  rw [hD] at hleads
  have hfind2 : D.leads.find? (fun l => l.linkedin_url == u) = some row := by
    rw [hleads, List.find?_append, hfind1]
    simp [hurlrow]
  have h2 : create_lead_from_interaction D i2 p2 c2
      = { db := D, lead_id := some row.id, created := false } := by
    unfold create_lead_from_interaction
    simp [hu2, hfind2]
  have hnil : db.leads.filter (fun l => l.linkedin_url == u) = [] := by
    rw [List.filter_eq_nil_iff]
    intro a ha
    simpa using hno a ha
  rw [hD]
  refine ⟨hc1, ?_, ?_, ?_, ?_, ?_⟩
  · rw [h2]
  · rw [h2]
    dsimp only
    rw [hleads]
    simp
  · rw [h2]
    dsimp only
    rw [hleads, List.filter_append, hnil]
    simp [List.filter_cons, hurlrow]
  · rw [hlid, hid]
  · rw [h2, hid]

/-- Witness for C3_dedup_single_lead: both jane interactions against the empty
table. -/
theorem C3_dedup_single_lead_witness :
    (create_lead_from_interaction emptyDB janeItx1 ingestPost none).created = true ∧
    (create_lead_from_interaction (create_lead_from_interaction emptyDB janeItx1 ingestPost none).db
      janeItx2 ingestPost none).created = false ∧
    (create_lead_from_interaction (create_lead_from_interaction emptyDB janeItx1 ingestPost none).db
      janeItx2 ingestPost none).db.leads.length = emptyDB.leads.length + 1 ∧
    ((create_lead_from_interaction (create_lead_from_interaction emptyDB janeItx1 ingestPost none).db
        janeItx2 ingestPost none).db.leads.filter
      (fun l => l.linkedin_url == "https://linkedin.com/in/jane")).length = 1 ∧
    (create_lead_from_interaction emptyDB janeItx1 ingestPost none).lead_id = some emptyDB.nextId ∧
    (create_lead_from_interaction (create_lead_from_interaction emptyDB janeItx1 ingestPost none).db
      janeItx2 ingestPost none).lead_id = some emptyDB.nextId :=
  C3_dedup_single_lead emptyDB "https://linkedin.com/in/jane" janeItx1 janeItx2
    ingestPost ingestPost none none rfl rfl (by intro l hl; simp [emptyDB] at hl)

/-! Claim C4. -/

/-- A lead owned by organization 2 with the jane profile URL. -/
def janeLeadOrg2 : LeadRow :=
  { id := 1, org_id := 2, name := "Jane", linkedin_url := "https://linkedin.com/in/jane",
    score := 10, source := "manual", status := "new", enrichment_status := "pending", tags := [] }

/-- A lead table holding only organization 2's jane lead. -/
def crossTenantDB : DB := { leads := [janeLeadOrg2], nextId := 2 }

/-- A post being ingested for organization 1. -/
def crossTenantPost : PostRow := { id := 3, org_id := 1, post_url := "https://linkedin.com/posts/3" }

/-- The jane interaction observed during organization 1's ingestion. -/
def janeItxOrg1 : PostInteraction :=
  { type := "COMMENT", content := "nice", actor_name := some "Jane", actor_headline := "VP",
    actor_profile_url := some "https://linkedin.com/in/jane",
    classification := "medium", relevance_score := 40 }

/-- Claim C4 failing-input evaluation: the ingestion dedup query filters on
linkedin_url only, so ingesting the jane interaction for organization 1 links
it to organization 2's lead (id 1) and creates no lead for organization 1 —
while the repository's org-scoped lookup correctly finds nothing for
organization 1. -/
theorem C4_cross_tenant_link_evaluation :
    (create_lead_from_interaction crossTenantDB janeItxOrg1 crossTenantPost none).lead_id
      = some 1 ∧
    (create_lead_from_interaction crossTenantDB janeItxOrg1 crossTenantPost none).created
      = false ∧
    ((crossTenantDB.leads.find? (fun l => l.id == 1)).map (fun l => l.org_id)) = some 2 ∧
    crossTenantPost.org_id = 1 ∧
    get_by_linkedin_url crossTenantDB 1 "https://linkedin.com/in/jane" = none ∧
    get_by_linkedin_url crossTenantDB 2 "https://linkedin.com/in/jane" = some janeLeadOrg2 := by
  decide

/-! Claim C7. -/

/-- Claim C7, amended: only a step-1 actor-call failure (call_actor returning
no dataset id) aborts the workflow — the post is marked failed, no lead is
created, and a linked campaign is marked failed; when the step-1 call
succeeds, the workflow always completes (post marked completed, linked
campaign marked completed), even if the step-1 dataset is empty or the
step-2/step-3 calls fail (their item lists default to empty). -/
theorem C7_only_step1_call_failure_aborts (env : WorkflowEnv) (db : DB) (post : PostRow)
    (camp : Option Nat) :
    (env.step1 = none →
      (execute_apify_workflow env db post camp).post.status = "failed" ∧
      (execute_apify_workflow env db post camp).db = db ∧
      (execute_apify_workflow env db post camp).new_leads = 0 ∧
      (execute_apify_workflow env db post camp).campaign_status
        = (if camp.isSome then some "failed" else none)) ∧
    (∀ items, env.step1 = some items →
      (execute_apify_workflow env db post camp).post.status = "completed" ∧
      (execute_apify_workflow env db post camp).campaign_status
        = (if camp.isSome then some "completed" else none)) := by
  constructor
  · intro h
    unfold execute_apify_workflow
    simp [h]
  · intro items h
    unfold execute_apify_workflow
    cases items <;> simp [h]

/-- Witness for C7_only_step1_call_failure_aborts: the all-defaults
environment has no step-1 dataset, so the post and the linked campaign are
marked failed and the lead table is untouched. -/
theorem C7_only_step1_call_failure_aborts_witness :
    (execute_apify_workflow {} emptyDB ingestPost (some 5)).post.status = "failed" ∧
    (execute_apify_workflow {} emptyDB ingestPost (some 5)).db = emptyDB ∧
    (execute_apify_workflow {} emptyDB ingestPost (some 5)).campaign_status = some "failed" := by
  have h := (C7_only_step1_call_failure_aborts {} emptyDB ingestPost (some 5)).1 rfl
  exact ⟨h.1, h.2.1, h.2.2.2⟩

/-- Environment whose step-1 dataset is empty (zero results) and whose
step-2 and step-3 calls failed. -/
def zeroAndFailedEnv : WorkflowEnv :=
  { hasClient := false, step1 := some [], step2 := none, step3 := none }

/-- Claim C7 counterexample: a zero-result step-1 dataset together with
failed step-2 and step-3 fetches does not abort — the post and the linked
campaign are marked completed, not failed. -/
theorem C7_tolerated_failures_counterexample :
    zeroAndFailedEnv.step1 = some [] ∧
    zeroAndFailedEnv.step2 = none ∧
    zeroAndFailedEnv.step3 = none ∧
    (execute_apify_workflow zeroAndFailedEnv emptyDB ingestPost (some 4)).post.status
      = "completed" ∧
    (execute_apify_workflow zeroAndFailedEnv emptyDB ingestPost (some 4)).campaign_status
      = some "completed" ∧
    ("completed" : String) ≠ "failed" := by decide

/-! Claim C8. -/

/-- Claim C8, amended: a processed comment at or above the threshold (30) is
resolved-or-created by canonical profile URL — an existing lead (any row with
that URL) is linked without a new row; otherwise a new lead is appended whose
initial score is the interaction's relevance score and whose tags carry
ai_discovered, the classification and the interaction type. Reactions never
trigger lead creation: with no comments the lead table is unchanged no matter
how many (or how relevant) the reactions are. -/
theorem C8_comment_resolve_or_create (db : DB) (itx : PostInteraction) (post : PostRow)
    (camp : Option Nat) (u : String) (env : WorkflowEnv) (db2 : DB) (post2 : PostRow)
    (camp2 : Option Nat)
    (hu : itx.actor_profile_url = some u) (hrel : 30 ≤ itx.relevance_score) :
    ((∃ l, db.leads.find? (fun r => r.linkedin_url == u) = some l ∧
        create_lead_from_interaction db itx post camp
          = { db := db, lead_id := some l.id, created := false }) ∨
      (db.leads.find? (fun r => r.linkedin_url == u) = none ∧
        ∃ row, (create_lead_from_interaction db itx post camp).db.leads = db.leads ++ [row] ∧
          (create_lead_from_interaction db itx post camp).lead_id = some row.id ∧
          (create_lead_from_interaction db itx post camp).created = true ∧
          row.score = itx.relevance_score ∧
          row.tags = ["ai_discovered", itx.classification, strLower itx.type])) ∧
    (env.step2.getD [] = [] → (execute_apify_workflow env db2 post2 camp2).db = db2) := by
  constructor
  · cases hfind : db.leads.find? (fun r => r.linkedin_url == u) with
    | some l =>
        left
        refine ⟨l, rfl, ?_⟩
        unfold create_lead_from_interaction
        simp [hu, hfind]
    | none =>
        right
        have hcreated : (create_lead_from_interaction db itx post camp).created = true := by
          unfold create_lead_from_interaction
          simp [hu, hfind]
        obtain ⟨row, hleads, hlid, _, _, hscore, _, htags⟩ :=
          create_lead_created_aux db itx post camp hcreated
        exact ⟨rfl, row, hleads, hlid, hcreated, hscore, htags⟩
  · intro h2
    unfold execute_apify_workflow
    cases hs1 : env.step1 with
    | none => rfl
    | some items => simp [hs1, h2]

/-- A reaction author whose AI evaluation has persona fit 100. -/
def highFitEval : AIEval := { role_category := some "influencer", persona_fit_score := some 100 }

/-- A reaction item with that high-fit author. -/
def highFitLike : CommentItem :=
  { text := "", author_name := some "Amy", author_headline := some "CTO",
    author_profile_url := some "https://linkedin.com/in/amy",
    ai := EvalResponse.parsed highFitEval }

/-- Environment with no comments and one high-fit reaction. -/
def reactionsOnlyEnv : WorkflowEnv :=
  { hasClient := true, step1 := some [], step2 := some [], step3 := some [highFitLike] }

/-- Claim C8 counterexample: a reaction whose relevance score 53 is above the
qualification threshold is processed (the like counter reaches 1) but no lead
is ever created from it — the like loop has no resolve-or-create step. -/
theorem C8_reaction_never_creates_lead_counterexample :
    (process_interaction true (EvalResponse.parsed highFitEval) "LIKE" (some "Amy")
      (some "CTO") (some "https://linkedin.com/in/amy") "").relevance_score = 53 ∧
    30 ≤ (process_interaction true (EvalResponse.parsed highFitEval) "LIKE" (some "Amy")
      (some "CTO") (some "https://linkedin.com/in/amy") "").relevance_score ∧
    (execute_apify_workflow reactionsOnlyEnv emptyDB ingestPost none).db.leads.length = 0 ∧
    (execute_apify_workflow reactionsOnlyEnv emptyDB ingestPost none).post.total_likes = 1 := by
  decide

/-- Witness for C8_comment_resolve_or_create: the jane comment (relevance 45)
against the empty table, and the reactions-only environment. -/
theorem C8_comment_resolve_or_create_witness :
    ((∃ l, emptyDB.leads.find? (fun r => r.linkedin_url == "https://linkedin.com/in/jane") = some l ∧
        create_lead_from_interaction emptyDB janeItx1 ingestPost none
          = { db := emptyDB, lead_id := some l.id, created := false }) ∨
      (emptyDB.leads.find? (fun r => r.linkedin_url == "https://linkedin.com/in/jane") = none ∧
        ∃ row, (create_lead_from_interaction emptyDB janeItx1 ingestPost none).db.leads
            = emptyDB.leads ++ [row] ∧
          (create_lead_from_interaction emptyDB janeItx1 ingestPost none).lead_id = some row.id ∧
          (create_lead_from_interaction emptyDB janeItx1 ingestPost none).created = true ∧
          row.score = janeItx1.relevance_score ∧
          row.tags = ["ai_discovered", janeItx1.classification, strLower janeItx1.type])) ∧
    (execute_apify_workflow reactionsOnlyEnv emptyDB ingestPost none).db = emptyDB := by
  have h := C8_comment_resolve_or_create emptyDB janeItx1 ingestPost none
    "https://linkedin.com/in/jane" reactionsOnlyEnv emptyDB ingestPost none rfl (by decide)
  exact ⟨h.1, h.2 rfl⟩

/-! Claim C9. -/

/-- Claim C9, amended: in LeadService._match_persona an unparsable
company-size string makes the facet a no-op (the match result is the same as
with no company_size_min rule at all); but in persona.service's
check_persona_match an unparsable or missing company size is treated as size
0, so any positive min_company_size makes the persona fail regardless of the
other facets. -/
theorem C9_company_size_parse_policy (lead : Lead) (p : Persona) (m : Int) :
    (parseLeadSizeMin lead.company_size = none →
      matchPersona lead p
        = matchPersona lead
            { p with rules_json := { p.rules_json with company_size_min := none } }) ∧
    (p.rules_json.min_company_size = some m → 0 < m →
      leadCompanySizeVal lead.company_size = 0 →
      personaRuleMatch lead p = false) := by
  constructor
  · intro h
    unfold matchPersona
    dsimp only
    rw [h]
    cases hm : p.rules_json.company_size_min <;> simp [hm]
  · intro h1 h2 h3
    unfold personaRuleMatch
    dsimp only
    rw [h1, h3]
    simp [h2]

/-- A lead whose company-size string has no parsable leading integer. -/
def unknownSizeLead : Lead := { company_size := some "unknown" }

/-- check_persona_match persona requiring minimum company size 50. -/
def minSizePersona : Persona := { rules_json := { min_company_size := some 50 } }

/-- check_persona_match persona with no rules at all. -/
def noRulesPersona : Persona := { rules_json := {} }

/-- _match_persona persona requiring minimum company size 50 (lead_service
key). -/
def minSizePersonaLS : Persona := { rules_json := { company_size_min := some 50 } }

/-- Claim C9 counterexample: with company size "unknown" (unparsable), the
dropped rules variant matches but the min_company_size variant fails in
check_persona_match — the unparsable company-size facet alone blocks the
match there, while LeadService._match_persona indeed treats it as passing. -/
theorem C9_check_persona_match_counterexample :
    pyInt? (splitDashHead "unknown") = none ∧
    check_persona_match unknownSizeLead [minSizePersona] = false ∧
    check_persona_match unknownSizeLead [noRulesPersona] = true ∧
    matchPersona unknownSizeLead minSizePersonaLS = true := by decide

/-- Witness for C9_company_size_parse_policy at the unparsable-size lead and
the two size-rule personas. -/
theorem C9_company_size_parse_policy_witness :
    (matchPersona unknownSizeLead minSizePersonaLS
      = matchPersona unknownSizeLead
          { minSizePersonaLS with
            rules_json := { minSizePersonaLS.rules_json with company_size_min := none } }) ∧
    personaRuleMatch unknownSizeLead minSizePersona = false :=
  ⟨(C9_company_size_parse_policy unknownSizeLead minSizePersonaLS 50).1 (by decide),
   (C9_company_size_parse_policy unknownSizeLead minSizePersona 50).2 rfl (by decide) (by decide)⟩

end LeadGenius
